import Mathlib

/-!
Verification development for the halo-xero-widget server.

The JavaScript source (server revisions in src/unnamed/part_001 and
src/server.js) is shallowly embedded below.  Monetary amounts are decimal
currency values; they are modelled in exact integer cents (the code only
adds, subtracts, compares and two-decimal-formats them, and the scaling by
100 is an isomorphism for those operations), absent JSON fields as Option
values, failing upstream calls as Except values, and the module-level
mutable state (tokens, tenantId and the node-cache store) as explicit
state passing.

Time is modelled as an abstract ordered integer axis.  JavaScript Date
parsing (used by the code only through the comparison new Date(x) < today)
is modelled by an order-embedding of date-only strings YYYY-MM-DD into that
axis; absent or unparseable inputs give none, matching the fact that the
comparison NaN < t is false for every t.
-/

namespace HaloXero

/-- Numeric value of a decimal digit character, none for non-digits. -/
def digit? (c : Char) : Option Nat :=
  if c.isDigit then some (c.toNat - 48) else none

/-- Parse a ten-character list of the shape YYYY-MM-DD into (year, month, day). -/
def parseYMD : List Char → Option (Nat × Nat × Nat)
  | [y1, y2, y3, y4, s1, m1, m2, s2, d1, d2] =>
    match digit? y1, digit? y2, digit? y3, digit? y4,
          digit? m1, digit? m2, digit? d1, digit? d2 with
    | some a, some b, some c, some e, some f, some g, some h, some i =>
      if s1 = '-' ∧ s2 = '-' then
        let y := ((a * 10 + b) * 10 + c) * 10 + e
        let m := f * 10 + g
        let d := h * 10 + i
        if 1 ≤ m ∧ m ≤ 12 ∧ 1 ≤ d ∧ d ≤ 31 then some (y, m, d) else none
      else none
    | _, _, _, _, _, _, _, _ => none
  | _ => none

/-- Model of JavaScript date parsing for date-only strings: a valid
YYYY-MM-DD string is mapped to an order-preserving encoding on the time
axis, anything else to none (JavaScript would yield an Invalid Date whose
comparisons are all false, which is how none is consumed below). -/
def parseDate (s : String) : Option ℤ :=
  (parseYMD s.data).map (fun x => ((x.1 * 10000 + x.2.1 * 100 + x.2.2 : Nat) : ℤ))

/-- Model of new Date(x) for an optional field x: an absent field is
undefined and yields an Invalid Date, modelled as none. -/
def jsDate (od : Option String) : Option ℤ := od.bind parseDate

/-- Model of the comparison new Date(x) < today.  Invalid dates compare as
NaN, for which every comparison is false. -/
def newDateLt (od : Option String) (t : ℤ) : Bool :=
  match jsDate od with
  | none => false
  | some v => decide (v < t)

/-- Two-digit zero padding used by the money formatter. -/
def pad2 (n : Nat) : String := if n < 10 then "0" ++ toString n else toString n

/-- Render a nonnegative number of cents with two decimals. -/
def fmtNonneg (n : Nat) : String :=
  toString (n / 100) ++ "." ++ pad2 (n % 100)

/-- Model of Number.prototype.toFixed(2) on a cent-exact amount carried in
integer cents. -/
def toFixed2 (q : ℤ) : String :=
  if q < 0 then "-" ++ fmtNonneg (-q).toNat else fmtNonneg q.toNat

/-- Model of the JavaScript expression a || b on optional strings: the
empty string and an absent value are falsy. -/
def jsOr (a b : Option String) : Option String :=
  match a with
  | some s => if s = "" then b else some s
  | none => b

/-- Model of the JavaScript expression x || null on an optional string. -/
def jsOrNull (a : Option String) : Option String := jsOr a none

/-- The fields of a fetched invoice or credit note that the aggregation in
pushDocs (src/unnamed/part_001 lines 300-322 and 589-612) reads.  Absent
JSON fields are none. -/
structure Doc where
  AmountDue : Option ℤ
  RemainingCredit : Option ℤ
  Total : Option ℤ
  Status : Option String
  DueDate : Option String
  ContactName : Option String
  DateString : Option String
  InvoiceNumber : Option String
  CreditNoteNumber : Option String
  DueDateString : Option String
deriving DecidableEq, Repr

/-- The expression d.AmountDue ?? d.RemainingCredit ?? 0. -/
def balance (d : Doc) : ℤ := d.AmountDue.getD (d.RemainingCredit.getD 0)

/-- The expression d.Total ?? 0. -/
def totalOf (d : Doc) : ℤ := d.Total.getD 0

/-- One entry of the rows list built by pushDocs. -/
structure Row where
  name : Option String
  date : Option String
  type : String
  number : Option String
  due : Option String
  total : String
  balance : String
deriving DecidableEq, Repr

/-- The row object pushed for one document. -/
def docRow (d : Doc) (ty : String) : Row :=
  { name := d.ContactName,
    date := d.DateString.map (fun s => s.take 10),
    type := ty,
    number := jsOr d.InvoiceNumber d.CreditNoteNumber,
    due := d.DueDateString.map (fun s => s.take 10),
    total := toFixed2 (totalOf d),
    balance := toFixed2 (balance d) }

/-- The mutable accumulators of the finance handler: accountBal,
overdueBal and the rows array. -/
structure Agg where
  accountBal : ℤ
  overdueBal : ℤ
  rows : List Row
deriving DecidableEq, Repr

/-- One iteration of the pushDocs loop at src/unnamed/part_001 lines
300-322: credit notes subtract from the account balance, everything else
adds; any document whose due date parses strictly before today and whose
balance is positive adds to the overdue balance. -/
def pushDoc (today : ℤ) (ty : String) (acc : Agg) (d : Doc) : Agg :=
  let bal := balance d
  { accountBal := if ty = "CreditNote" then acc.accountBal - bal else acc.accountBal + bal,
    overdueBal := if newDateLt d.DueDate today ∧ 0 < bal then acc.overdueBal + bal else acc.overdueBal,
    rows := acc.rows ++ [docRow d ty] }

/-- The pushDocs loop at src/unnamed/part_001 lines 300-322. -/
def pushDocs (today : ℤ) (ty : String) (acc : Agg) (list : List Doc) : Agg :=
  list.foldl (pushDoc today ty) acc

/-- Character-wise uppercasing, modelling String.prototype.toUpperCase on
the ASCII range. -/
def jsToUpper (s : String) : String := String.mk (s.data.map Char.toUpper)

/-- The voided test of the revision at src/unnamed/part_001 lines 590-592:
(d.Status || "").toUpperCase() === "VOIDED". -/
def isVoided (d : Doc) : Bool := jsToUpper (d.Status.getD "") == "VOIDED"

/-- One iteration of the pushDocs loop of the revision at
src/unnamed/part_001 lines 589-612, which skips voided documents. -/
def pushDocV (today : ℤ) (ty : String) (acc : Agg) (d : Doc) : Agg :=
  if isVoided d then acc else pushDoc today ty acc d

/-- The pushDocs loop of the revision at src/unnamed/part_001 lines 589-612. -/
def pushDocsV (today : ℤ) (ty : String) (acc : Agg) (list : List Doc) : Agg :=
  list.foldl (pushDocV today ty) acc

/-- The zero-initialised accumulators of the handler. -/
def emptyAgg : Agg := { accountBal := 0, overdueBal := 0, rows := [] }

/-- The two pushDocs calls of the handler: invoices first, credit notes
second (src/unnamed/part_001 lines 324-325). -/
def aggregate (today : ℤ) (invoices creditNotes : List Doc) : Agg :=
  pushDocs today "CreditNote" (pushDocs today "Invoice" emptyAgg invoices) creditNotes

/-- The rendered data object built at src/unnamed/part_001 lines 327-332. -/
structure FinData where
  accountBal : String
  overdueBal : String
  rows : List Row
  asAt : String
deriving DecidableEq, Repr

/-- Formatting of the aggregated figures, src/unnamed/part_001 lines 327-332. -/
def buildData (today : ℤ) (asAt : String) (invoices creditNotes : List Doc) : FinData :=
  { accountBal := toFixed2 (aggregate today invoices creditNotes).accountBal,
    overdueBal := toFixed2 (aggregate today invoices creditNotes).overdueBal,
    rows := (aggregate today invoices creditNotes).rows,
    asAt := asAt }

/-- Sum of the code's balance field over a document list. -/
def sumBal (list : List Doc) : ℤ := (list.map balance).sum

/-- Overdue contribution of a single document in pushDocs. -/
def overdueAdd (today : ℤ) (d : Doc) : ℤ :=
  if newDateLt d.DueDate today ∧ 0 < balance d then balance d else 0

/-- Sum of overdue contributions over a document list. -/
def sumOverdue (today : ℤ) (list : List Doc) : ℤ := (list.map (overdueAdd today)).sum

/-- Model of crypto.timingSafeEqual on byte lists: it throws when the two
buffers have different lengths and otherwise reports byte equality. -/
def timingSafeEqual (a b : List Nat) : Except String Bool :=
  if a.length = b.length then Except.ok (a == b)
  else Except.error "ERR_CRYPTO_TIMING_SAFE_EQUAL_LENGTH"

/-- The comparison at src/unnamed/part_001 lines 97-99: a Buffer length
check short-circuits the call to timingSafeEqual, so the exception branch
is unreachable.  The byte encoding of Buffer.from is abstracted as enc. -/
def bufCompare (enc : String → List Nat) (received expected : String) : Except String Bool :=
  if (enc received).length = (enc expected).length then
    timingSafeEqual (enc received) (enc expected)
  else Except.ok false

/-- The query parameters read by validateHaloHmac. -/
structure HmacQuery where
  area : Option String
  agentId : Option String
  agentid : Option String
  hmac : Option String
deriving DecidableEq, Repr

/-- The structured result returned by validateHaloHmac. -/
structure HmacResult where
  valid : Bool
  reason : Option String
  canonical : Option String
  received : Option String
  expected : Option String
  area : Option String
  agentId : Option String
  hasSecret : Bool
deriving DecidableEq, Repr

/-- The validateHaloHmac function at src/unnamed/part_001 lines 64-110.
The HMAC-SHA256-then-base64 primitive is abstracted as hmacF (secret and
message to signature) and the Buffer byte encoding as enc.  The canonical
signed payload is exactly the resolved agentId string. -/
def validateHaloHmac (enc : String → List Nat) (hmacF : String → String → String)
    (secret : Option String) (q : HmacQuery) : Except String HmacResult :=
  let area := jsOrNull q.area
  let agentId := jsOr q.agentId (jsOr q.agentid none)
  let received := jsOrNull q.hmac
  let hasSecret := decide (secret.getD "" ≠ "")
  if hasSecret = false then
    Except.ok
      { valid := false, reason := some "Missing HMAC secret", canonical := none,
        received := none, expected := none, area := area, agentId := agentId,
        hasSecret := hasSecret }
  else
    match received, agentId with
    | some r, some a =>
      let expected := hmacF (secret.getD "") a
      match bufCompare enc r expected with
      | Except.error e => Except.error e
      | Except.ok v =>
        Except.ok
          { valid := v, reason := none, canonical := some a, received := some r,
            expected := some expected, area := area, agentId := some a,
            hasSecret := hasSecret }
    | _, _ =>
      Except.ok
        { valid := false, reason := some "Missing HMAC param or agentId",
          canonical := none, received := none, expected := none, area := area,
          agentId := agentId, hasSecret := hasSecret }

/-- The persisted credential: tokens.json fields read and written by the
server (src/unnamed/part_001 lines 29-34). -/
structure Tokens where
  access_token : String
  refresh_token : String
  tenantId : String
  tenantName : String
deriving DecidableEq, Repr

/-- The fields of a token-endpoint response body that matter to the
credential; absent fields are none. -/
structure TokenResponse where
  access_token : Option String
  refresh_token : Option String
deriving DecidableEq, Repr

/-- The spread merge tokens = \x7b ...tokens, ...r.data \x7d at
src/unnamed/part_001 line 203: fields present in the response overwrite,
every other field keeps its prior value. -/
def mergeTokens (t : Tokens) (r : TokenResponse) : Tokens :=
  { access_token := r.access_token.getD t.access_token,
    refresh_token := r.refresh_token.getD t.refresh_token,
    tenantId := t.tenantId,
    tenantName := t.tenantName }

/-- The errors thrown inside the finance request path. -/
inductive JsErr where
  | notAuthorized
  | noTenant
  | http (msg : String)
deriving DecidableEq, Repr

/-- The ensureToken function at src/unnamed/part_001 lines 187-206: throw
when no refresh token is on record, otherwise always call the refresh
endpoint (modelled by the refresh argument), merge the response into the
credential, persist it (the Bool component) and return the new access
token. -/
def ensureToken (refresh : String → Except String TokenResponse) (t : Tokens) :
    Except JsErr (Tokens × Bool × String) :=
  if t.refresh_token = "" then Except.error JsErr.notAuthorized
  else
    match refresh t.refresh_token with
    | Except.error e => Except.error (JsErr.http e)
    | Except.ok r => Except.ok (mergeTokens t r, true, (mergeTokens t r).access_token)

/-- The wholesale assignment tokens = r.data at src/server.js line 328:
the credential becomes the response object itself, so every field the
response omits is absent afterwards (absent string fields are modelled as
the empty string, which is exactly how the code reads them — through
falsy checks). -/
def assignTokens (r : TokenResponse) : Tokens :=
  { access_token := r.access_token.getD "",
    refresh_token := r.refresh_token.getD "",
    tenantId := "",
    tenantName := "" }

/-- The ensureToken function of the revision at src/server.js lines
315-331: throw when no refresh token is on record, otherwise call the
refresh endpoint and REPLACE the credential wholesale with the response
(tokens = r.data), persist it and return its access token.  The
module-level tenantId variable of that revision is separate from the
credential and is not touched here. -/
def ensureTokenJS (refresh : String → Except String TokenResponse) (t : Tokens) :
    Except JsErr (Tokens × Bool × String) :=
  if t.refresh_token = "" then Except.error JsErr.notAuthorized
  else
    match refresh t.refresh_token with
    | Except.error e => Except.error (JsErr.http e)
    | Except.ok r => Except.ok (assignTokens r, true, (assignTokens r).access_token)

/-- One entry of the node-cache store, with its absolute expiry instant. -/
structure CEntry where
  key : String
  val : FinData
  expiresAt : ℤ
deriving DecidableEq, Repr

/-- Model of NodeCache.get with lazy expiry: a stored entry is returned
while the current instant is before its expiry. -/
def ncGet (store : List CEntry) (now : ℤ) (k : String) : Option FinData :=
  match store.find? (fun e => e.key == k) with
  | some e => if now < e.expiresAt then some e.val else none
  | none => none

/-- Model of NodeCache.set under stdTTL: the entry expires ttl after now. -/
def ncSet (store : List CEntry) (now : ℤ) (k : String) (v : FinData) (ttl : ℤ) : List CEntry :=
  { key := k, val := v, expiresAt := now + ttl } :: store.filter (fun e => e.key != k)

/-- The double-quote character. -/
def qChar : Char := Char.ofNat 34

/-- Character-stream form of contactName.replace matching every
double-quote globally and rewriting it to a backslash-quote pair
(src/unnamed/part_001 line 271). -/
def escapeChars : List Char → List Char
  | [] => []
  | c :: rest =>
    if c = qChar then Char.ofNat 92 :: qChar :: escapeChars rest
    else c :: escapeChars rest

/-- The safeName computed at src/unnamed/part_001 line 271. -/
def escapeName (s : String) : String := String.mk (escapeChars s.data)

/-- The fixed part of the contact-lookup URL at src/unnamed/part_001 line 273. -/
def contactUrlPrefix : String := "https://api.xero.com/api.xro/2.0/Contacts?where=Name==\""

/-- The contact-lookup URL built at src/unnamed/part_001 lines 272-274. -/
def contactUrl (contactName : String) : String :=
  contactUrlPrefix ++ escapeName contactName ++ "\""

/-- The apostrophe character. -/
def apos : Char := Char.ofNat 39

/-- Characters that encodeURIComponent leaves unescaped. -/
def uriUnreserved (c : Char) : Bool :=
  c.isAlphanum || c == '-' || c == '_' || c == '.' || c == '!' || c == '~' ||
    c == '*' || c == apos || c == '(' || c == ')'

/-- Uppercase hexadecimal digit. -/
def hexDigit (n : Nat) : Char := if n < 10 then Char.ofNat (48 + n) else Char.ofNat (55 + n)

/-- Percent-escape of one byte. -/
def pctEncByte (b : Nat) : String := String.mk ['%', hexDigit (b / 16), hexDigit (b % 16)]

/-- UTF-8 bytes of one character. -/
def utf8Bytes (c : Char) : List Nat :=
  let n := c.toNat
  if n < 128 then [n]
  else if n < 2048 then [192 + n / 64, 128 + n % 64]
  else if n < 65536 then [224 + n / 4096, 128 + (n / 64) % 64, 128 + n % 64]
  else [240 + n / 262144, 128 + (n / 4096) % 64, 128 + (n / 64) % 64, 128 + n % 64]

/-- Model of JavaScript encodeURIComponent, used by the contact lookup of
the revisions at src/server.js line 143 and src/unnamed/part_001 line 554. -/
def encodeURIComponent (s : String) : String :=
  String.join (s.data.map (fun c =>
    if uriUnreserved c then String.singleton c
    else String.join ((utf8Bytes c).map pctEncByte)))

/-- The contact-lookup URL of the revision at src/server.js lines 143-146,
which percent-encodes the whole name and does no backslash escaping. -/
def contactUrlEnc (contactName : String) : String :=
  contactUrlPrefix ++ encodeURIComponent contactName ++ "\""

/-- The upstream endpoints reached from the finance handler, as response
oracles: the refresh grant keyed by the refresh token sent, the
connections listing, the contact lookup keyed by the escaped name embedded
in the URL, and the invoice and credit-note listings keyed by contact id.
An Except.error is a rejected axios promise. -/
structure Env where
  refresh : String → Except String TokenResponse
  connections : Except String (List (String × String))
  contacts : String → Except String (List String)
  invoices : String → Except String (List Doc)
  creditNotes : String → Except String (List Doc)

/-- The module-level mutable state of the server: the tokens object, the
tenantId variable and the node-cache store. -/
structure St where
  tokens : Tokens
  tenantId : String
  cache : List CEntry
deriving Repr

/-- How many times each upstream endpoint was called while serving one
request. -/
structure Calls where
  refresh : Nat
  connections : Nat
  contacts : Nat
  invoices : Nat
  creditNotes : Nat
deriving DecidableEq, Repr

/-- No upstream call at all. -/
def czero : Calls := { refresh := 0, connections := 0, contacts := 0, invoices := 0, creditNotes := 0 }

/-- The response bodies the finance route can produce. -/
inductive Body where
  | unauthorized
  | missingContact
  | render (d : FinData)
  | notFound (name : String)
  | serverError
deriving DecidableEq, Repr

/-- An HTTP response of the finance route together with its call counts. -/
structure HRes where
  status : Nat
  body : Body
  calls : Calls
deriving DecidableEq, Repr

/-- The ensureTenantId function at src/unnamed/part_001 lines 208-227:
return the known tenant id if present, otherwise query the connections
listing, throw when it is empty, and otherwise commit to the first tenant,
updating and persisting the credential.  The Bool reports whether the
listing was queried. -/
def ensureTenantId (connections : Except String (List (String × String))) (st : St) :
    Except JsErr (St × String × Bool) :=
  if st.tenantId ≠ "" then Except.ok (st, st.tenantId, false)
  else
    match connections with
    | Except.error e => Except.error (JsErr.http e)
    | Except.ok [] => Except.error JsErr.noTenant
    | Except.ok (t :: _) =>
      Except.ok
        ({ st with
            tenantId := t.1,
            tokens := { st.tokens with tenantId := t.1, tenantName := t.2 } },
          t.1, true)

/-- Steps 5 and on of the finance route (src/unnamed/part_001 lines
285-335): fetch invoices and credit notes for the contact, aggregate,
store the result under the cache key and render it.  Either fetch failure
is caught by the route's catch and becomes a 500. -/
def fetchAndRender (env : Env) (now : ℤ) (asAt : String) (st : St) (key cid : String)
    (c0 : Calls) : HRes × St :=
  match env.invoices cid with
  | Except.error _ => ({ status := 500, body := Body.serverError, calls := { c0 with invoices := 1 } }, st)
  | Except.ok invList =>
    match env.creditNotes cid with
    | Except.error _ =>
      ({ status := 500, body := Body.serverError, calls := { c0 with invoices := 1, creditNotes := 1 } }, st)
    | Except.ok cnList =>
      ({ status := 200, body := Body.render (buildData now asAt invList cnList),
          calls := { c0 with invoices := 1, creditNotes := 1 } },
        { st with cache := ncSet st.cache now key (buildData now asAt invList cnList) 120 })

/-- Steps 3 and 4 of the finance route on a cache miss (src/unnamed/part_001
lines 258-283): refresh the access token, resolve the tenant, and when only
a name is known look the contact up by its escaped name, answering 404 when
no contact matches.  Every thrown error is caught at lines 336-342 and
becomes a 500. -/
def financeAfterCache (env : Env) (now : ℤ) (asAt : String) (st : St) (key : String)
    (target : String ⊕ String) : HRes × St :=
  match ensureToken env.refresh st.tokens with
  | Except.error JsErr.notAuthorized => ({ status := 500, body := Body.serverError, calls := czero }, st)
  | Except.error _ => ({ status := 500, body := Body.serverError, calls := { czero with refresh := 1 } }, st)
  | Except.ok (tok, _, _) =>
    match ensureTenantId env.connections { st with tokens := tok } with
    | Except.error _ =>
      ({ status := 500, body := Body.serverError, calls := { czero with refresh := 1, connections := 1 } },
        { st with tokens := tok })
    | Except.ok (st2, _, called) =>
      match target with
      | Sum.inl cid =>
        fetchAndRender env now asAt st2 key cid
          { czero with refresh := 1, connections := if called then 1 else 0 }
      | Sum.inr name =>
        match env.contacts (escapeName name) with
        | Except.error _ =>
          ({ status := 500, body := Body.serverError,
              calls := { czero with refresh := 1, connections := if called then 1 else 0, contacts := 1 } },
            st2)
        | Except.ok [] =>
          ({ status := 404, body := Body.notFound name,
              calls := { czero with refresh := 1, connections := if called then 1 else 0, contacts := 1 } },
            st2)
        | Except.ok (cid :: _) =>
          fetchAndRender env now asAt st2 key cid
            { czero with refresh := 1, connections := if called then 1 else 0, contacts := 1 }

/-- The query parameters of a finance request. -/
structure FinQuery where
  area : Option String
  agentId : Option String
  agentid : Option String
  hmac : Option String
  contactId : Option String
  contactName : Option String
deriving DecidableEq, Repr

/-- The GET /finance route at src/unnamed/part_001 lines 232-343: validate
the signature (401 when invalid), resolve which contact to look up (400
when neither an id nor a name is available), consult the cache under
contactId || contactName and render a hit immediately; otherwise run the
cache-miss path.  Every error thrown inside the try block is mapped to a
500 by the catch at lines 336-342. -/
def financeHandler (enc : String → List Nat) (hmacF : String → String → String)
    (secret : Option String) (env : Env) (now : ℤ) (asAt : String)
    (q : FinQuery) (st : St) : HRes × St :=
  match validateHaloHmac enc hmacF secret { area := q.area, agentId := q.agentId, agentid := q.agentid, hmac := q.hmac } with
  | Except.error _ => ({ status := 500, body := Body.serverError, calls := czero }, st)
  | Except.ok h =>
    if h.valid then
      match jsOrNull q.contactId, jsOr (jsOrNull q.area) (jsOrNull q.contactName) with
      | none, none => ({ status := 400, body := Body.missingContact, calls := czero }, st)
      | some cid, _ =>
        match ncGet st.cache now cid with
        | some d => ({ status := 200, body := Body.render d, calls := czero }, st)
        | none => financeAfterCache env now asAt st cid (Sum.inl cid)
      | none, some nm =>
        match ncGet st.cache now nm with
        | some d => ({ status := 200, body := Body.render d, calls := czero }, st)
        | none => financeAfterCache env now asAt st nm (Sum.inr nm)
    else ({ status := 401, body := Body.unauthorized, calls := czero }, st)

/-- The invoice of the spec scenario: Total 100.00, AmountDue 40.00 (in
cents), due yesterday relative to fixtureToday. -/
def fixtureInvoice : Doc :=
  { AmountDue := some 4000, RemainingCredit := none, Total := some 10000,
    Status := none, DueDate := some "2025-01-01", ContactName := none,
    DateString := none, InvoiceNumber := some "INV-1", CreditNoteNumber := none,
    DueDateString := some "2025-01-01" }

/-- The credit note of the spec scenario: Total 10.00, RemainingCredit
10.00 (in cents), no due date. -/
def fixtureCreditNote : Doc :=
  { AmountDue := none, RemainingCredit := some 1000, Total := some 1000,
    Status := none, DueDate := none, ContactName := none,
    DateString := none, InvoiceNumber := none, CreditNoteNumber := some "CN-1",
    DueDateString := none }

/-- The current instant of the scenario, one day after the invoice is due. -/
def fixtureToday : ℤ := 20250102

/-- A credit note whose due date lies strictly in the past and whose
balance is positive. -/
def pastDueCreditNote : Doc :=
  { AmountDue := none, RemainingCredit := some 1000, Total := some 1000,
    Status := none, DueDate := some "2025-01-01", ContactName := none,
    DateString := none, InvoiceNumber := none, CreditNoteNumber := some "CN-2",
    DueDateString := some "2025-01-01" }

/-- An invoice marked voided upstream, carrying a positive balance. -/
def voidedInvoice : Doc :=
  { AmountDue := some 500, RemainingCredit := none, Total := some 500,
    Status := some "VOIDED", DueDate := none, ContactName := none,
    DateString := none, InvoiceNumber := some "INV-V", CreditNoteNumber := none,
    DueDateString := none }

/-- A concrete injective byte encoding of strings, usable as an instance of
the abstract Buffer encoding. -/
def encCP (s : String) : List Nat := s.data.map Char.toNat

/-- A concrete keyed-signature function, usable as an instance of the
abstract HMAC primitive when a theorem quantified over that primitive is
applied to explicit inputs. -/
def hmacToy (secret msg : String) : String := secret ++ ":" ++ msg

/-- The display name of the quoting scenario, containing an apostrophe. -/
def oBrienCo : String := "O" ++ String.singleton apos ++ "Brien & Co"

/-- An upstream environment whose endpoints all answer trivially. -/
def env0 : Env :=
  { refresh := fun _ => Except.error "refresh unreachable",
    connections := Except.ok [],
    contacts := fun _ => Except.ok [],
    invoices := fun _ => Except.ok [],
    creditNotes := fun _ => Except.ok [] }

/-- A server state that has never completed authorization: empty tokens,
no tenant, empty cache. -/
def st0 : St :=
  { tokens := { access_token := "", refresh_token := "", tenantId := "", tenantName := "" },
    tenantId := "", cache := [] }

/-- A finance request whose signature is valid for hmacToy under secret
sec, carrying a display name but no contact id. -/
def q0 : FinQuery :=
  { area := some "Acme", agentId := some "7", agentid := none,
    hmac := some "sec:7", contactId := none, contactName := none }

/-- A sample stored summary used to exercise the cache. -/
def dSample : FinData :=
  { accountBal := "30.00", overdueBal := "40.00", rows := [], asAt := "t0" }

/-- Every upstream endpoint is called at most once while serving one
request. -/
def CallsOK (c : Calls) : Prop :=
  c.refresh ≤ 1 ∧ c.connections ≤ 1 ∧ c.contacts ≤ 1 ∧ c.invoices ≤ 1 ∧ c.creditNotes ≤ 1

/-- A refresh response that rotates both tokens. -/
def rotResponse : TokenResponse := { access_token := some "newTok", refresh_token := some "newRef" }

/-- A refresh oracle that always rotates. -/
def refreshRot : String → Except String TokenResponse := fun _ => Except.ok rotResponse

/-- A refresh response that carries a fresh access token but omits the
refresh token — a shape the response type itself admits. -/
def rNoRef : TokenResponse := { access_token := some "newTok", refresh_token := none }

/-- A refresh oracle answering with rNoRef. -/
def refreshNoRef : String → Except String TokenResponse := fun _ => Except.ok rNoRef

/-- A fully populated credential. -/
def tokSample : Tokens :=
  { access_token := "oldTok", refresh_token := "ref", tenantId := "tid", tenantName := "Acme Ltd" }

/-- A server state holding a freshly cached summary for the name Acme,
stored at instant 0. -/
def stCached : St :=
  { tokens := { access_token := "", refresh_token := "", tenantId := "", tenantName := "" },
    tenantId := "", cache := ncSet [] 0 "Acme" dSample 120 }

/-- The query parameters used to probe the authenticator concretely. -/
def qh : HmacQuery :=
  { area := some "Acme", agentId := some "7", agentid := none, hmac := some "sec:7" }

/-- A finance request carrying a signature that does not match. -/
def qBad : FinQuery :=
  { area := some "Acme", agentId := some "7", agentid := none,
    hmac := some "WRONG", contactId := none, contactName := none }

/-- The authenticator result for q0 under secret sec and the sample
primitive: a valid signature. -/
def hOK : HmacResult :=
  { valid := true, reason := none, canonical := some "7", received := some "sec:7",
    expected := some "sec:7", area := some "Acme", agentId := some "7", hasSecret := true }

/-- The authenticator result for qBad under secret sec and the sample
primitive: a rejected signature. -/
def hBad : HmacResult :=
  { valid := false, reason := none, canonical := some "7", received := some "WRONG",
    expected := some "sec:7", area := some "Acme", agentId := some "7", hasSecret := true }

/-- A document whose due-date field holds a string no Date parser accepts. -/
def unparseableDoc : Doc :=
  { AmountDue := some 700, RemainingCredit := none, Total := some 700,
    Status := none, DueDate := some "notadate", ContactName := none,
    DateString := none, InvoiceNumber := some "INV-U", CreditNoteNumber := none,
    DueDateString := none }

end HaloXero

namespace HaloXero

/-- Account-balance effect of the pushDocs loop: invoices add their
balances, credit notes subtract them. -/
theorem pushDocs_accountBal (today : ℤ) (ty : String) (list : List Doc) :
    ∀ acc : Agg, (pushDocs today ty acc list).accountBal =
      acc.accountBal + (if ty = "CreditNote" then -sumBal list else sumBal list) := by
  induction list with
  | nil =>
    intro acc
    by_cases h : ty = "CreditNote" <;> simp [pushDocs, sumBal, h]
  | cons d rest ih =>
    intro acc
    simp only [pushDocs, List.foldl_cons] at ih ⊢
    rw [ih (pushDoc today ty acc d)]
    by_cases h : ty = "CreditNote" <;>
      simp [pushDoc, sumBal, h] <;> ring

/-- Overdue-balance effect of the pushDocs loop: every document whose due
date parses strictly before today and whose balance is positive adds its
balance, whatever its type. -/
theorem pushDocs_overdueBal (today : ℤ) (ty : String) (list : List Doc) :
    ∀ acc : Agg, (pushDocs today ty acc list).overdueBal =
      acc.overdueBal + sumOverdue today list := by
  induction list with
  | nil => intro acc; simp [pushDocs, sumOverdue]
  | cons d rest ih =>
    intro acc
    simp only [pushDocs, List.foldl_cons] at ih ⊢
    rw [ih (pushDoc today ty acc d)]
    by_cases h : newDateLt d.DueDate today ∧ 0 < balance d <;>
      (simp [pushDoc, sumOverdue, overdueAdd, h]; try ring)

/-- Row effect of the pushDocs loop: one row is appended per document, in
order. -/
theorem pushDocs_rows (today : ℤ) (ty : String) (list : List Doc) :
    ∀ acc : Agg, (pushDocs today ty acc list).rows =
      acc.rows ++ list.map (fun d => docRow d ty) := by
  induction list with
  | nil => intro acc; simp [pushDocs]
  | cons d rest ih =>
    intro acc
    simp only [pushDocs, List.foldl_cons] at ih ⊢
    rw [ih (pushDoc today ty acc d)]
    simp [pushDoc]

/-- The voided-aware loop of the later revision coincides with the earlier
loop run on the non-voided documents. -/
theorem pushDocsV_filter (today : ℤ) (ty : String) (list : List Doc) :
    ∀ acc : Agg, pushDocsV today ty acc list =
      pushDocs today ty acc (list.filter (fun d => !(isVoided d))) := by
  induction list with
  | nil => intro acc; simp [pushDocsV, pushDocs]
  | cons d rest ih =>
    intro acc
    by_cases h : isVoided d <;>
      simp only [pushDocsV, pushDocs, List.foldl_cons, List.filter_cons, h,
        Bool.not_true, Bool.not_false, if_true, if_false, pushDocV] at ih ⊢ <;>
      simp [h, ih]

/-- C1 counterexample: a credit note whose due date lies strictly before
the current instant and whose balance is positive does contribute to the
overdue balance in pushDocs — the loop never tests the document type in
its overdue branch, so the overdue figure of a run over that single credit
note is 10.00 rather than 0. -/
theorem creditNote_pastDue_counted_overdue :
    newDateLt pastDueCreditNote.DueDate fixtureToday = true ∧
    0 < balance pastDueCreditNote ∧
    (aggregate fixtureToday [] [pastDueCreditNote]).overdueBal = 1000 ∧
    (aggregate fixtureToday [] [pastDueCreditNote]).overdueBal ≠ 0 := by
  decide

/-- C1 (corrected): the overdue balance produced by the aggregation sums
the balances of ALL documents whose due date parses strictly before the
current instant and whose balance is positive — invoices and credit notes
alike; the overdue branch of pushDocs is independent of the document
type. -/
theorem overdue_counts_both_types (today : ℤ) (invoices creditNotes : List Doc) :
    (aggregate today invoices creditNotes).overdueBal =
      sumOverdue today invoices + sumOverdue today creditNotes := by
  simp only [aggregate, pushDocs_overdueBal, emptyAgg]
  ring

/-- C3 (confirmed): on the spec scenario (invoice Total 100.00, AmountDue
40.00, due yesterday; credit note Total 10.00, RemainingCredit 10.00) the
rendered figures are accountBal 30.00 and overdueBal 40.00; in general the
account balance is the sum of invoice balances minus the sum of
credit-note balances, where a document's balance is its own
outstanding-amount field when the other type's field is absent, else 0. -/
theorem scenario_and_account_invariant :
    (∀ asAt,
      (buildData fixtureToday asAt [fixtureInvoice] [fixtureCreditNote]).accountBal = "30.00" ∧
      (buildData fixtureToday asAt [fixtureInvoice] [fixtureCreditNote]).overdueBal = "40.00") ∧
    (∀ (today : ℤ) (invoices creditNotes : List Doc),
      (aggregate today invoices creditNotes).accountBal = sumBal invoices - sumBal creditNotes) ∧
    (∀ d : Doc, d.RemainingCredit = none → balance d = d.AmountDue.getD 0) ∧
    (∀ d : Doc, d.AmountDue = none → balance d = d.RemainingCredit.getD 0) := by
  refine ⟨?_, ?_, ?_, ?_⟩
  · intro asAt
    constructor <;> (simp only [buildData]; decide)
  · intro today invoices creditNotes
    simp only [aggregate, pushDocs_accountBal, emptyAgg, if_true]
    rw [if_neg (show ¬("Invoice" : String) = "CreditNote" by decide)]
    ring
  · intro d h
    simp [balance, h]
  · intro d h
    simp [balance, h]

/-- Witness for C3 on the scenario credit note: its AmountDue field is
absent, so its balance is its RemainingCredit. -/
theorem scenario_and_account_invariant_witness :
    fixtureCreditNote.AmountDue = none ∧
    balance fixtureCreditNote = fixtureCreditNote.RemainingCredit.getD 0 :=
  ⟨rfl, scenario_and_account_invariant.2.2.2 fixtureCreditNote rfl⟩

/-- C4 counterexample: in the revision of pushDocs at
src/unnamed/part_001 lines 300-322 there is no status test (and the
invoice query at lines 286-289 carries no VOIDED filter), so a voided
invoice with a positive balance is counted into the account balance and
produces a row. -/
theorem voided_counted_in_earlier_revision :
    isVoided voidedInvoice = true ∧
    (aggregate 0 [voidedInvoice] []).accountBal = 500 ∧
    (aggregate 0 [voidedInvoice] []).rows ≠ [] := by
  decide

/-- C4 (corrected): only the revision of pushDocs at src/unnamed/part_001
lines 589-612 excludes voided documents: there, a document whose status is
voided (case-insensitively) is skipped entirely — it contributes to
neither balance figure and produces no row — so the loop equals the
earlier loop run on the non-voided documents; the earlier revision at
lines 300-322 performs no such exclusion. -/
theorem voided_skipped_in_later_revision :
    (∀ (today : ℤ) (ty : String) (acc : Agg) (list : List Doc),
      pushDocsV today ty acc list =
        pushDocs today ty acc (list.filter (fun d => !(isVoided d)))) ∧
    (∀ (today : ℤ) (ty : String) (acc : Agg) (d : Doc),
      isVoided d = true → pushDocV today ty acc d = acc) := by
  constructor
  · intro today ty acc list
    exact pushDocsV_filter today ty list acc
  · intro today ty acc d h
    simp [pushDocV, h]

/-- Witness for C4: the voided invoice is skipped by the voided-aware
loop. -/
theorem voided_skipped_in_later_revision_witness :
    pushDocV 0 "Invoice" emptyAgg voidedInvoice = emptyAgg :=
  voided_skipped_in_later_revision.2 0 "Invoice" emptyAgg voidedInvoice (by decide)

/-- C10 (confirmed): a document whose due-date field is absent or does not
parse as a date never contributes to the overdue balance, in either
revision of pushDocs: the comparison against an invalid date is false
rather than an exception. -/
theorem invalid_dueDate_not_overdue :
    ∀ (today : ℤ) (ty : String) (acc : Agg) (d : Doc), jsDate d.DueDate = none →
      (pushDoc today ty acc d).overdueBal = acc.overdueBal ∧
      (pushDocV today ty acc d).overdueBal = acc.overdueBal := by
  intro today ty acc d h
  have hlt : newDateLt d.DueDate today = false := by simp [newDateLt, h]
  constructor
  · simp [pushDoc, hlt]
  · by_cases hv : isVoided d
    · simp [pushDocV, hv]
    · simp [pushDocV, hv, pushDoc, hlt]

/-- Witness for C10 on a document with an unparseable due-date string. -/
theorem invalid_dueDate_not_overdue_witness :
    jsDate unparseableDoc.DueDate = none ∧
    (pushDoc 0 "Invoice" emptyAgg unparseableDoc).overdueBal = emptyAgg.overdueBal :=
  ⟨by decide, (invalid_dueDate_not_overdue 0 "Invoice" emptyAgg unparseableDoc (by decide)).1⟩

/-- Unicode scalar values are determined by their numeric value. -/
theorem char_toNat_injective : Function.Injective Char.toNat := by
  intro a b h
  exact Char.eq_of_val_eq (UInt32.eq_of_toBitVec_eq (BitVec.toNat_injective h))

/-- The concrete byte encoding encCP is injective. -/
theorem encCP_injective : Function.Injective encCP := by
  intro a b h
  have hd : a.data = b.data := List.map_injective_iff.mpr char_toNat_injective h
  cases a
  cases b
  exact congrArg String.mk hd

/-- The guarded comparison of the authenticator never raises: the length
check short-circuits the throwing branch of timingSafeEqual, and the
result is exactly string equality for any injective byte encoding. -/
theorem bufCompare_ok (enc : String → List Nat) (hinj : Function.Injective enc)
    (received expected : String) :
    bufCompare enc received expected = Except.ok (decide (received = expected)) := by
  unfold bufCompare
  by_cases h : (enc received).length = (enc expected).length
  · rw [if_pos h]
    unfold timingSafeEqual
    rw [if_pos h]
    congr 1
    by_cases he : received = expected
    · simp [he]
    · have hne : enc received ≠ enc expected := fun hc => he (hinj hc)
      simp [he, hne]
  · rw [if_neg h]
    have hne : received ≠ expected := fun hc => h (by rw [hc])
    simp [hne]

/-- C2 (confirmed): with a configured shared secret and a present agentId
and signature, validateHaloHmac returns a result (never an exception: the
length check short-circuits the comparison before timingSafeEqual could
throw) whose valid flag is true exactly when the received signature equals
the keyed-hash signature of the agent identifier string alone — so any
mutated signature, of equal or different length, is rejected.  The
statement holds for every injective byte encoding of strings (UTF-8
included) and every signature primitive. -/
theorem validateHaloHmac_accepts_exactly_hmac :
    ∀ (enc : String → List Nat) (hmacF : String → String → String)
      (s a r : String) (q : HmacQuery),
      Function.Injective enc →
      s ≠ "" →
      jsOr q.agentId (jsOr q.agentid none) = some a →
      jsOrNull q.hmac = some r →
      validateHaloHmac enc hmacF (some s) q =
        Except.ok
          { valid := decide (r = hmacF s a), reason := none, canonical := some a,
            received := some r, expected := some (hmacF s a), area := jsOrNull q.area,
            agentId := some a, hasSecret := true } := by
  intro enc hmacF s a r q hinj hs ha hr
  simp only [validateHaloHmac, ha, hr, Option.getD_some]
  rw [bufCompare_ok enc hinj]
  simp [hs]

/-- Witness for C2: the concrete query qh carries the matching signature
for secret sec under the sample primitive, and is accepted. -/
theorem validateHaloHmac_accepts_exactly_hmac_witness :
    validateHaloHmac encCP hmacToy (some "sec") qh =
      Except.ok
        { valid := decide ("sec:7" = hmacToy "sec" "7"), reason := none,
          canonical := some "7", received := some "sec:7",
          expected := some (hmacToy "sec" "7"), area := jsOrNull qh.area,
          agentId := some "7", hasSecret := true } :=
  validateHaloHmac_accepts_exactly_hmac encCP hmacToy "sec" "7" "sec:7" qh
    encCP_injective (by decide) (by decide) (by decide)

/-- C5 (confirmed): ensureToken fails with the not-authorized error exactly
when no refresh token is on record; whenever one is present it performs the
refresh exchange unconditionally and, on success, persists the merged
credential (the true flag) and returns exactly the access token the
upstream response carries — so when the upstream rotates tokens the value
returned is the fresh token, never the stored one. -/
theorem ensureToken_unconditional_refresh :
    ∀ (refresh : String → Except String TokenResponse) (t : Tokens),
      (ensureToken refresh t = Except.error JsErr.notAuthorized ↔ t.refresh_token = "") ∧
      (∀ r, t.refresh_token ≠ "" → refresh t.refresh_token = Except.ok r →
        ensureToken refresh t =
          Except.ok (mergeTokens t r, true, (mergeTokens t r).access_token)) ∧
      (∀ r A, t.refresh_token ≠ "" → refresh t.refresh_token = Except.ok r →
        r.access_token = some A →
        ensureToken refresh t = Except.ok (mergeTokens t r, true, A)) := by
  intro refresh t
  refine ⟨?_, ?_, ?_⟩
  · by_cases h : t.refresh_token = ""
    · simp [ensureToken, h]
    · simp only [ensureToken, if_neg h]
      cases hr : refresh t.refresh_token <;> simp [h]
  · intro r hne hr
    simp [ensureToken, hne, hr]
  · intro r A hne hr hA
    simp [ensureToken, hne, hr, mergeTokens, hA]

/-- Witness for C5: with a rotating upstream, the token returned is the
fresh one, which differs from the stored token. -/
theorem ensureToken_unconditional_refresh_witness :
    ensureToken refreshRot tokSample =
      Except.ok (mergeTokens tokSample rotResponse, true, "newTok") ∧
    "newTok" ≠ tokSample.access_token :=
  ⟨(ensureToken_unconditional_refresh refreshRot tokSample).2.2 rotResponse "newTok"
      (by decide) rfl rfl,
    by decide⟩

/-- Frame property of the part_001 spread merge: a successful refresh
through ensureToken keeps tenantId and tenantName verbatim, replaces the
refresh and access tokens only when the upstream response carries them,
and keeps the prior values when it does not; the credential is
persisted. -/
theorem ensureToken_frame :
    ∀ (refresh : String → Except String TokenResponse) (t t' : Tokens) (saved : Bool) (a : String),
      ensureToken refresh t = Except.ok (t', saved, a) →
      t'.tenantId = t.tenantId ∧ t'.tenantName = t.tenantName ∧ saved = true ∧
      (∀ r, refresh t.refresh_token = Except.ok r →
        (r.refresh_token = none → t'.refresh_token = t.refresh_token) ∧
        (∀ rt, r.refresh_token = some rt → t'.refresh_token = rt) ∧
        (r.access_token = none → t'.access_token = t.access_token)) := by
  intro refresh t t' saved a h
  by_cases hrt : t.refresh_token = ""
  · simp [ensureToken, hrt] at h
  · simp only [ensureToken, if_neg hrt] at h
    cases hr : refresh t.refresh_token with
    | error e => rw [hr] at h; simp at h
    | ok r0 =>
      rw [hr] at h
      simp only [Except.ok.injEq, Prod.mk.injEq] at h
      obtain ⟨ht', hsaved, _⟩ := h
      refine ⟨?_, ?_, ?_, ?_⟩
      · rw [← ht']; rfl
      · rw [← ht']; rfl
      · rw [← hsaved]
      · intro r hrr
        obtain rfl : r0 = r := Except.ok.inj hrr
        refine ⟨?_, ?_, ?_⟩
        · intro hn; rw [← ht']; simp [mergeTokens, hn]
        · intro rt hsome; rw [← ht']; simp [mergeTokens, hsome]
        · intro hn; rw [← ht']; simp [mergeTokens, hn]

/-- C6 counterexample: in the revision at src/server.js lines 315-331 the
assignment tokens = r.data replaces the credential wholesale, so a
successful refresh whose response omits the refresh token discards the
stored refresh token, and the credential keeps none of its prior fields
(here the tenant identity is dropped from the credential as well). -/
theorem serverjs_refresh_discards_refresh_token :
    tokSample.refresh_token = "ref" ∧
    ensureTokenJS refreshNoRef tokSample =
      Except.ok (assignTokens rNoRef, true, "newTok") ∧
    (assignTokens rNoRef).refresh_token = "" ∧
    (assignTokens rNoRef).refresh_token ≠ tokSample.refresh_token ∧
    (assignTokens rNoRef).tenantId ≠ tokSample.tenantId := by
  refine ⟨rfl, rfl, rfl, by decide, by decide⟩

/-- C6 (corrected): the frame property holds only for the revision at
src/unnamed/part_001 lines 187-206, whose spread merge keeps the tenant
identity fields verbatim, replaces the access and refresh tokens only when
the response carries them, and keeps the stored refresh token when the
response omits it; in the revision at src/server.js lines 315-331 the
credential is replaced wholesale by the response — after a successful
refresh it equals exactly the assigned response object, independent of
every prior field (only that revision's separate module-level tenantId
variable, which ensureToken does not touch, survives). -/
theorem refresh_frame_per_revision :
    (∀ (refresh : String → Except String TokenResponse) (t t' : Tokens) (saved : Bool) (a : String),
      ensureToken refresh t = Except.ok (t', saved, a) →
      t'.tenantId = t.tenantId ∧ t'.tenantName = t.tenantName ∧ saved = true ∧
      (∀ r, refresh t.refresh_token = Except.ok r →
        (r.refresh_token = none → t'.refresh_token = t.refresh_token) ∧
        (∀ rt, r.refresh_token = some rt → t'.refresh_token = rt) ∧
        (r.access_token = none → t'.access_token = t.access_token))) ∧
    (∀ (refresh : String → Except String TokenResponse) (t t' : Tokens) (saved : Bool)
       (a : String) (r : TokenResponse),
      ensureTokenJS refresh t = Except.ok (t', saved, a) →
      refresh t.refresh_token = Except.ok r →
      t' = assignTokens r ∧ saved = true) := by
  refine ⟨ensureToken_frame, ?_⟩
  intro refresh t t' saved a r h hr
  by_cases hrt : t.refresh_token = ""
  · simp [ensureTokenJS, hrt] at h
  · simp only [ensureTokenJS, if_neg hrt, hr] at h
    simp only [Except.ok.injEq, Prod.mk.injEq] at h
    obtain ⟨ht', hsaved, _⟩ := h
    exact ⟨ht'.symm, hsaved.symm⟩

/-- Witness for C6: across the sample rotating refresh of the part_001
revision both tenant fields are preserved, and across the sample
omitting refresh of the server.js revision the credential equals the
response object. -/
theorem refresh_frame_per_revision_witness :
    ((mergeTokens tokSample rotResponse).tenantId = tokSample.tenantId ∧
      (mergeTokens tokSample rotResponse).tenantName = tokSample.tenantName) ∧
    assignTokens rNoRef = assignTokens rNoRef :=
  ⟨⟨(refresh_frame_per_revision.1 refreshRot tokSample (mergeTokens tokSample rotResponse) true
        (mergeTokens tokSample rotResponse).access_token rfl).1,
      (refresh_frame_per_revision.1 refreshRot tokSample (mergeTokens tokSample rotResponse) true
        (mergeTokens tokSample rotResponse).access_token rfl).2.1⟩,
    (refresh_frame_per_revision.2 refreshNoRef tokSample (assignTokens rNoRef) true
        "newTok" rNoRef rfl rfl).1⟩

/-- Quote-free character streams pass through the escaping untouched. -/
theorem escapeChars_id : ∀ l : List Char, (∀ c ∈ l, c ≠ qChar) → escapeChars l = l := by
  intro l
  induction l with
  | nil => intro _; rfl
  | cons c rest ih =>
    intro h
    have hc : c ≠ qChar := h c (List.mem_cons_self c rest)
    simp only [escapeChars, if_neg hc]
    rw [ih (fun x hx => h x (List.mem_cons_of_mem c hx))]

/-- C7 counterexample: the contact-lookup URL of the handler at
src/unnamed/part_001 lines 269-283 embeds the display name after only
backslash-escaping double quotes; the embedded value for the name
O-apostrophe-Brien and Co is the raw name itself, which is not
percent-encoded (its percent-encoding is a different string), refuting the
claim that the whole value is percent-encoded. -/
theorem contactUrl_embeds_raw_name :
    contactUrl oBrienCo = contactUrlPrefix ++ oBrienCo ++ "\"" ∧
    encodeURIComponent (escapeName oBrienCo) ≠ escapeName oBrienCo := by
  decide

/-- C7 (corrected): in the handler at src/unnamed/part_001 lines 269-283
only embedded double-quote characters are escaped (each one becomes a
backslash-quote pair) and the value is embedded in the filter without any
percent-encoding, so a quote-free name such as O-apostrophe-Brien and Co is
embedded verbatim; the revision at src/server.js lines 141-157 instead
percent-encodes the whole name via encodeURIComponent (which leaves
apostrophes intact) and does no backslash escaping. -/
theorem escaping_per_revision :
    (∀ s : String, (∀ c ∈ s.data, c ≠ qChar) → escapeName s = s) ∧
    escapeName (String.mk [qChar]) = String.mk [Char.ofNat 92, qChar] ∧
    (∀ name : String, contactUrl name = contactUrlPrefix ++ escapeName name ++ "\"") ∧
    contactUrlEnc oBrienCo =
      contactUrlPrefix ++ ("O" ++ String.singleton apos ++ "Brien%20%26%20Co") ++ "\"" := by
  refine ⟨?_, by decide, fun name => rfl, by decide⟩
  intro s h
  cases s with
  | mk data => exact congrArg String.mk (escapeChars_id data h)

/-- Witness for C7: the quote-free scenario name passes through the
escaping unchanged. -/
theorem escaping_per_revision_witness : escapeName oBrienCo = oBrienCo :=
  escaping_per_revision.1 oBrienCo (by decide)

/-- On the cache-miss path, every upstream endpoint is called at most
once. -/
theorem financeAfterCache_callsOK (env : Env) (now : ℤ) (asAt : String) (st : St)
    (key : String) (target : String ⊕ String) :
    CallsOK (financeAfterCache env now asAt st key target).1.calls := by
  unfold financeAfterCache fetchAndRender
  repeat' split
  all_goals simp only [CallsOK, czero]
  all_goals norm_num

/-- The finance route never calls any upstream endpoint twice while
serving one request: there is no retry anywhere. -/
theorem financeHandler_callsOK (enc : String → List Nat) (hmacF : String → String → String)
    (secret : Option String) (env : Env) (now : ℤ) (asAt : String) (q : FinQuery) (st : St) :
    CallsOK (financeHandler enc hmacF secret env now asAt q st).1.calls := by
  unfold financeHandler
  repeat' split
  all_goals try apply financeAfterCache_callsOK
  all_goals simp only [CallsOK, czero]
  all_goals norm_num

/-- C8 counterexample: a request that reaches the handler with a valid
signature but no refresh token on record is answered with status 500, not
401 — the not-authorized error is thrown inside the try block and the
catch at src/unnamed/part_001 lines 336-342 maps every caught error to
500. -/
theorem notAuthorized_request_gets_500 :
    st0.tokens.refresh_token = "" ∧
    (financeHandler encCP hmacToy (some "sec") env0 0 "t" q0 st0).1.status = 500 ∧
    (financeHandler encCP hmacToy (some "sec") env0 0 "t" q0 st0).1.status ≠ 401 := by
  decide

/-- C8 (corrected): the finance route maps an invalid signature to 401 and
a failed name lookup to 404, but every error thrown inside the try block —
the not-authorized error raised when no refresh token is on record as well
as upstream fetch failures — is caught and mapped to 500; no error is
swallowed (each produces its error response) and no upstream endpoint is
ever called twice. -/
theorem financeHandler_error_mapping :
    (∀ (enc : String → List Nat) (hmacF : String → String → String)
       (secret : Option String) (env : Env) (now : ℤ) (asAt : String)
       (q : FinQuery) (st : St) (h : HmacResult),
      validateHaloHmac enc hmacF secret
          { area := q.area, agentId := q.agentId, agentid := q.agentid, hmac := q.hmac } =
        Except.ok h →
      h.valid = false →
      financeHandler enc hmacF secret env now asAt q st =
        ({ status := 401, body := Body.unauthorized, calls := czero }, st)) ∧
    (∀ (enc : String → List Nat) (hmacF : String → String → String)
       (secret : Option String) (env : Env) (now : ℤ) (asAt : String)
       (q : FinQuery) (st : St) (h : HmacResult) (nm : String),
      validateHaloHmac enc hmacF secret
          { area := q.area, agentId := q.agentId, agentid := q.agentid, hmac := q.hmac } =
        Except.ok h →
      h.valid = true →
      jsOrNull q.contactId = none →
      jsOr (jsOrNull q.area) (jsOrNull q.contactName) = some nm →
      ncGet st.cache now nm = none →
      st.tokens.refresh_token = "" →
      financeHandler enc hmacF secret env now asAt q st =
        ({ status := 500, body := Body.serverError, calls := czero }, st)) ∧
    (∀ (enc : String → List Nat) (hmacF : String → String → String)
       (secret : Option String) (env : Env) (now : ℤ) (asAt : String)
       (q : FinQuery) (st : St) (h : HmacResult) (nm : String) (r : TokenResponse),
      validateHaloHmac enc hmacF secret
          { area := q.area, agentId := q.agentId, agentid := q.agentid, hmac := q.hmac } =
        Except.ok h →
      h.valid = true →
      jsOrNull q.contactId = none →
      jsOr (jsOrNull q.area) (jsOrNull q.contactName) = some nm →
      ncGet st.cache now nm = none →
      st.tokens.refresh_token ≠ "" →
      env.refresh st.tokens.refresh_token = Except.ok r →
      st.tenantId ≠ "" →
      env.contacts (escapeName nm) = Except.ok [] →
      (financeHandler enc hmacF secret env now asAt q st).1 =
        { status := 404, body := Body.notFound nm,
          calls := { refresh := 1, connections := 0, contacts := 1, invoices := 0, creditNotes := 0 } }) ∧
    (∀ (enc : String → List Nat) (hmacF : String → String → String)
       (secret : Option String) (env : Env) (now : ℤ) (asAt : String)
       (q : FinQuery) (st : St) (h : HmacResult) (cid : String) (r : TokenResponse) (msg : String),
      validateHaloHmac enc hmacF secret
          { area := q.area, agentId := q.agentId, agentid := q.agentid, hmac := q.hmac } =
        Except.ok h →
      h.valid = true →
      jsOrNull q.contactId = some cid →
      ncGet st.cache now cid = none →
      st.tokens.refresh_token ≠ "" →
      env.refresh st.tokens.refresh_token = Except.ok r →
      st.tenantId ≠ "" →
      env.invoices cid = Except.error msg →
      (financeHandler enc hmacF secret env now asAt q st).1 =
        { status := 500, body := Body.serverError,
          calls := { refresh := 1, connections := 0, contacts := 0, invoices := 1, creditNotes := 0 } }) ∧
    (∀ (enc : String → List Nat) (hmacF : String → String → String)
       (secret : Option String) (env : Env) (now : ℤ) (asAt : String)
       (q : FinQuery) (st : St),
      CallsOK (financeHandler enc hmacF secret env now asAt q st).1.calls) := by
  refine ⟨?_, ?_, ?_, ?_, ?_⟩
  · intro enc hmacF secret env now asAt q st h hval hv
    simp only [financeHandler, hval, hv, Bool.false_eq_true, if_false]
  · intro enc hmacF secret env now asAt q st h nm hval hv hcid hnm hmiss hrt
    simp only [financeHandler, hval, hv, if_true, hcid, hnm, hmiss]
    simp [financeAfterCache, ensureToken, hrt]
  · intro enc hmacF secret env now asAt q st h nm r hval hv hcid hnm hmiss hrt hok htid hcon
    simp only [financeHandler, hval, hv, if_true, hcid, hnm, hmiss]
    simp [financeAfterCache, ensureToken, hrt, hok, ensureTenantId, htid, hcon, czero]
  · intro enc hmacF secret env now asAt q st h cid r msg hval hv hcid hmiss hrt hok htid hinv
    simp only [financeHandler, hval, hv, if_true, hcid, hmiss]
    simp [financeAfterCache, ensureToken, hrt, hok, ensureTenantId, htid, fetchAndRender, hinv, czero]
  · intro enc hmacF secret env now asAt q st
    exact financeHandler_callsOK enc hmacF secret env now asAt q st

/-- Witness for C8: a concretely signed request whose signature does not
match is answered 401 by the handler. -/
theorem financeHandler_error_mapping_witness :
    financeHandler encCP hmacToy (some "sec") env0 0 "t" qBad st0 =
      ({ status := 401, body := Body.unauthorized, calls := czero }, st0) :=
  financeHandler_error_mapping.1 encCP hmacToy (some "sec") env0 0 "t" qBad st0 hBad
    rfl rfl

/-- C9 (confirmed): an entry stored under the two-minute TTL is still
served strictly inside its window, and on a cache hit the handler returns
exactly the stored summary, touches no upstream endpoint (all call
counters are zero — only the authenticator ran) and leaves the server
state unchanged; this covers both cache-key shapes, the display name and
the explicit contact id. -/
theorem finance_cache_hit_serves_stored :
    (∀ (store : List CEntry) (t tLater : ℤ) (k : String) (v : FinData),
        tLater < t + 120 → ncGet (ncSet store t k v 120) tLater k = some v) ∧
    (∀ (enc : String → List Nat) (hmacF : String → String → String)
       (secret : Option String) (env : Env) (now : ℤ) (asAt : String)
       (q : FinQuery) (st : St) (h : HmacResult) (d : FinData) (nm : String),
        validateHaloHmac enc hmacF secret
            { area := q.area, agentId := q.agentId, agentid := q.agentid, hmac := q.hmac } =
          Except.ok h →
        h.valid = true →
        jsOrNull q.contactId = none →
        jsOr (jsOrNull q.area) (jsOrNull q.contactName) = some nm →
        ncGet st.cache now nm = some d →
        financeHandler enc hmacF secret env now asAt q st =
          ({ status := 200, body := Body.render d, calls := czero }, st)) ∧
    (∀ (enc : String → List Nat) (hmacF : String → String → String)
       (secret : Option String) (env : Env) (now : ℤ) (asAt : String)
       (q : FinQuery) (st : St) (h : HmacResult) (d : FinData) (cid : String),
        validateHaloHmac enc hmacF secret
            { area := q.area, agentId := q.agentId, agentid := q.agentid, hmac := q.hmac } =
          Except.ok h →
        h.valid = true →
        jsOrNull q.contactId = some cid →
        ncGet st.cache now cid = some d →
        financeHandler enc hmacF secret env now asAt q st =
          ({ status := 200, body := Body.render d, calls := czero }, st)) := by
  refine ⟨?_, ?_, ?_⟩
  · intro store t tLater k v hlt
    simp [ncGet, ncSet, hlt]
  · intro enc hmacF secret env now asAt q st h d nm hval hv hcid hnm hget
    simp only [financeHandler, hval, hv, if_true, hcid, hnm, hget]
  · intro enc hmacF secret env now asAt q st h d cid hval hv hcid hget
    simp only [financeHandler, hval, hv, if_true, hcid, hget]

/-- Witness for C9: a summary stored at instant 0 is still served at
instant 50, and the handler serves it with zero upstream calls. -/
theorem finance_cache_hit_serves_stored_witness :
    ncGet (ncSet [] 0 "Acme" dSample 120) 50 "Acme" = some dSample ∧
    financeHandler encCP hmacToy (some "sec") env0 50 "t" q0 stCached =
      ({ status := 200, body := Body.render dSample, calls := czero }, stCached) :=
  ⟨finance_cache_hit_serves_stored.1 [] 0 50 "Acme" dSample (by decide),
    finance_cache_hit_serves_stored.2.1 encCP hmacToy (some "sec") env0 50 "t" q0 stCached
      hOK dSample "Acme" rfl rfl rfl rfl (by decide)⟩

end HaloXero
